import Mathlib

/-!
Verification of the AiTermy context-assembly and conversation-state pipeline
(src/aitermy.py), as a shallow embedding in Lean 4.

Python strings are modelled as Lean `String`s, with the handful of `str`
operations the program uses re-implemented over the underlying character
lists so that every definition is executable and kernel-reducible.
-/

set_option maxRecDepth 100000

namespace AiTermy

/-! ## Python string primitives used by the source -/

/-- Python `s.startswith(p)`. -/
def pyStartsWith (s p : String) : Bool :=
  p.data.isPrefixOf s.data

/-- Membership of a substring (character-list form): Python `p in l`. -/
def listContainsSub (p : List Char) : List Char → Bool
  | [] => p.isPrefixOf []
  | c :: t => p.isPrefixOf (c :: t) || listContainsSub p t

/-- Python `sub in s` for strings. -/
def pyContains (s sub : String) : Bool :=
  listContainsSub sub.data s.data

/-- Membership of a single character in a character list. -/
def listHasChar : List Char → Char → Bool
  | [], _ => false
  | x :: xs, c => x == c || listHasChar xs c

/-- Python `c in s` for a single character. -/
def pyContainsChar (s : String) (c : Char) : Bool :=
  listHasChar s.data c

/-- Split at the first occurrence of `sep`: Python `s.split(sep, 1)` when a
separator occurs, returning the parts before and after that first `sep`. -/
def pySplitOnce (sep : Char) : List Char → Option (List Char × List Char)
  | [] => none
  | c :: cs =>
    if c = sep then some ([], cs)
    else
      match pySplitOnce sep cs with
      | some (a, b) => some (c :: a, b)
      | none => none

/-- Characters removed by Python `str.strip()`. -/
def isPySpace (c : Char) : Bool :=
  c = ' ' || c = '\t' || c = '\n' || c = '\r' || c = '\x0b' || c = '\x0c'

/-- Python `s.strip()` on a character list. -/
def pyStrip (s : List Char) : List Char :=
  ((s.dropWhile isPySpace).reverse.dropWhile isPySpace).reverse

/-- Python `s.strip()` on strings. -/
def pyStripStr (s : String) : String :=
  String.mk (pyStrip s.data)

/-- Python `s[:n]` for `n ≥ 0`. -/
def pyTakeStr (n : Nat) (s : String) : String :=
  String.mk (s.data.take n)

/-- Python `l[-k:]`. Note the `-0` pitfall: `l[-0:]` is `l[0:]`, the whole
list, not the empty suffix. -/
def pyLastSlice (k : Nat) (l : List α) : List α :=
  if k = 0 then l else l.drop (l.length - k)

/-! ## Data model: messages and the conversation store -/

/-- Message roles (`"system"` / `"user"` / `"assistant"`). -/
inductive Role
  | system
  | user
  | assistant
deriving DecidableEq, Repr

/-- One `{"role": ..., "content": ...}` entry of a conversation. -/
structure Message where
  role : Role
  content : String
deriving DecidableEq, Repr

/-- State of `current_conversation.pkl`: absent, holding bytes that fail to
deserialize, or holding an exact pickle of a message list. `pickle.dump` /
`pickle.load` round-trip the message-list object graph exactly (including
unicode), so the stored payload is modelled as the list itself. -/
inductive StoredFile
  | absent
  | corrupt
  | stored (h : List Message)

/-- `load_conversation_history` (src/aitermy.py:587-597): returns the stored
list when the file exists and deserializes, and `[]` on absence or error. -/
def load_conversation_history : StoredFile → List Message
  | StoredFile.stored h => h
  | _ => []

/-- `save_conversation_history` (src/aitermy.py:600-607): overwrites the file
with a pickle of `history`. -/
def save_conversation_history (history : List Message) (_ : StoredFile) : StoredFile :=
  StoredFile.stored history

/-- The turn-trimming step (src/aitermy.py:524-528 and 1097-1101):
`[history[0]] + history[-(2*T):]` when more than `2*T+1` messages are held. -/
def trimConversation (T : Nat) (h : List Message) : List Message :=
  if h.length > 2 * T + 1 then h.take 1 ++ pyLastSlice (2 * T) h else h

/-- The error-sentinel test applied to extracted answers
(src/aitermy.py:519 and 1094): `answer.startswith("Error extracting response:")`. -/
def sentinelCheck (answer : String) : Bool :=
  pyStartsWith answer "Error extracting response:"

/-- One completed question/answer turn's conversation update
(src/aitermy.py:511-528 and 1083-1101): append the user message, append the
assistant message unless the answer carries the error sentinel, then trim. -/
def processTurn (T : Nat) (history : List Message) (userInput answer : String) :
    List Message :=
  let h1 := history ++ [⟨Role.user, userInput⟩]
  let h2 := if sentinelCheck answer then h1 else h1 ++ [⟨Role.assistant, answer⟩]
  trimConversation T h2

/-! ## Shell context (get_shell_context, build_system_message) -/

/-- The `AITERMY_*` environment variables read by `get_shell_context`
(src/aitermy.py:620-635), after the dictionary defaults have been applied
(absent variables appear as `""`, `last_status` defaults to `"0"`). -/
structure ShellEnv where
  pwd : String
  oldpwd : String
  shell : String
  shell_version : String
  history : String
  last_cmd : String
  last_status : String
  user : String
  host : String

/-- The Shell Context Snapshot produced by `get_shell_context`. -/
structure ShellContext where
  pwd : String
  oldpwd : String
  shell : String
  shell_version : String
  history : String
  last_cmd : String
  last_status : String
  user : String
  host : String
  v3_mode : Bool

/-- `get_shell_context` (src/aitermy.py:620-652): self-filter the last
command, flag V3 mode from the `AITERMY_PWD` variable, and fall back to the
process working directory when it is absent. -/
def get_shell_context (e : ShellEnv) (cwd commandName : String) : ShellContext :=
  let lastCmd := if pyStartsWith e.last_cmd (commandName ++ " ") then "" else e.last_cmd
  { pwd := if e.pwd = "" then cwd else e.pwd
    oldpwd := e.oldpwd
    shell := e.shell
    shell_version := e.shell_version
    history := e.history
    last_cmd := lastCmd
    last_status := e.last_status
    user := e.user
    host := e.host
    v3_mode := e.pwd != "" }

/-- `build_system_message` (src/aitermy.py:193-233). `osType` stands for the
platform test on `sys.platform`. -/
def build_system_message (osType : String) (ctx : ShellContext) : String :=
  let m := "You are a helpful terminal AI assistant running on " ++ osType ++ "."
  let m := m ++ "\nCurrent directory: " ++ ctx.pwd
  let m :=
    if ctx.v3_mode then
      let m := if ctx.oldpwd ≠ "" then m ++ "\nPrevious directory: " ++ ctx.oldpwd else m
      let m :=
        if ctx.shell ≠ "" then
          m ++ "\nShell: " ++ ctx.shell ++
            (if ctx.shell_version ≠ "" then " " ++ ctx.shell_version else "")
        else m
      let m :=
        if ctx.user ≠ "" ∧ ctx.host ≠ "" then
          m ++ "\nUser: " ++ ctx.user ++ "@" ++ ctx.host
        else m
      let m := if ctx.history ≠ "" then m ++ "\n\nRecent commands:\n" ++ ctx.history else m
      let m :=
        if ctx.last_cmd ≠ "" then
          m ++ "\n\nLast command: " ++ ctx.last_cmd ++ " (" ++
            (if ctx.last_status = "0" then "succeeded"
             else "failed (exit code " ++ ctx.last_status ++ ")") ++ ")"
        else m
      m
    else m
  m ++ "\n\nProvide concise, direct answers suitable for terminal output. " ++
    "Use Markdown formatting where appropriate (like code blocks), but avoid overly long paragraphs. " ++
    "Focus directly on the user's question."

/-- The constant `CONSOLE_OUTPUT_ENABLED` (src/aitermy.py:152). -/
def consoleOutputEnabled : Bool := true

/-- Interactive-mode conversation initialization (src/aitermy.py:436-449):
when no conversation was loaded, synthesize the system message and append the
console-output context to it when that context is non-empty. `consoleCtx` is
the value `get_console_output_context()` returns for this invocation. -/
def interactiveInitConversation (loaded : List Message) (ctx : ShellContext)
    (osType : String) (consoleCtx : String) : List Message :=
  if loaded = [] then
    let sys := build_system_message osType ctx
    if consoleOutputEnabled then
      if consoleCtx ≠ "" then
        [⟨Role.system, sys ++ "\n\nRecent console output context:\n" ++ consoleCtx⟩]
      else [⟨Role.system, sys⟩]
    else [⟨Role.system, sys⟩]
  else loaded

/-- One-shot (`main`) message-list initialization (src/aitermy.py:1028-1032):
the synthesized system message never receives the console-output context. -/
def oneShotInitMessages (loaded : List Message) (ctx : ShellContext)
    (osType : String) : List Message :=
  if loaded = [] then [⟨Role.system, build_system_message osType ctx⟩] else loaded

/-! ## Terminal-history provider (get_terminal_context) -/

/-- Per-line processing of the zsh history file (src/aitermy.py:742-750):
a line containing both `";"` and `":"` is split at its first `";"` and the
remainder stripped; any other line is merely stripped. -/
def processEntry (entry : String) : String :=
  if pyContainsChar entry ';' && pyContainsChar entry ':' then
    match pySplitOnce ';' entry.data with
    | some (_, rest) => String.mk (pyStrip rest)
    | none => pyStripStr entry
  else pyStripStr entry

/-- The command-recovery and self-filtering pipeline of `get_terminal_context`
(src/aitermy.py:735-757): keep the last `lines` raw entries, process each, and
drop entries that start with the configured command name plus a space. -/
def filteredHistory (lines : Nat) (commandName : String) (entries : List String) :
    List String :=
  ((pyLastSlice lines entries).map processEntry).filter
    (fun e => !pyStartsWith e (commandName ++ " "))

/-- Modelled from the spec (§6 shell-history format): recognizer for the
`: <digits>:<digits>` timestamp header that precedes the first `";"`. -/
def timestampHeader (head : List Char) : Bool :=
  match head with
  | ':' :: ' ' :: t =>
    (match pySplitOnce ':' t with
     | some (d1, d2) =>
       decide (d1 ≠ []) && d1.all Char.isDigit && decide (d2 ≠ []) && d2.all Char.isDigit
     | none => false)
  | _ => false

/-- Modelled from the spec (§6 shell-history format), for comparison with
`processEntry`: a line carrying the `: <digits>:<digits>;` timestamp prefix
has the prefix stripped (and the command whitespace-stripped); every other
line is only whitespace-stripped. -/
def specRecoverCommand (entry : String) : String :=
  match pySplitOnce ';' entry.data with
  | some (head, rest) =>
    if timestampHeader head then String.mk (pyStrip rest) else pyStripStr entry
  | none => pyStripStr entry

/-! ## Console-output provider (get_console_output_context) -/

/-- Token estimation `len(content) // 4` (src/aitermy.py:690). -/
def estTok (s : String) : Nat := s.length / 4

/-- Combined token estimate of a list of (name, content) snapshot files. -/
def estSum (files : List (String × String)) : Nat :=
  (files.map (fun f => estTok f.2)).sum

/-- Formatting of one included snapshot (src/aitermy.py:697-705). -/
def renderPart (name content : String) : String :=
  "Console Output (" ++ name ++ "):\n" ++ content

/-- Truncation to `n` characters plus the truncation marker
(src/aitermy.py:695-696). -/
def truncatedContent (n : Nat) (s : String) : String :=
  pyTakeStr n s ++ "\n[...truncated...]"

/-- The greedy budget loop of `get_console_output_context`
(src/aitermy.py:680-706) over the (already sorted, newest-first) snapshot
files, carrying the running `total_tokens` accumulator. An overflowing file
is included truncated to the remaining budget when more than 100 token-units
remain, and the loop breaks at the first overflow either way. -/
def consoleLoop (maxTok : Nat) : List (String × String) → Nat → List String × Nat
  | [], total => ([], total)
  | f :: rest, total =>
    let ct := estTok f.2
    if total + ct > maxTok then
      let remaining := maxTok - total
      if remaining > 100 then
        ([renderPart f.1 (truncatedContent (remaining * 4) f.2)], total + remaining)
      else ([], total)
    else
      let r := consoleLoop maxTok rest (total + ct)
      (renderPart f.1 f.2 :: r.1, r.2)

/-- The constant `CONSOLE_OUTPUT_MAX_ITEMS` (src/aitermy.py:154). -/
def consoleOutputMaxItems : Nat := 10

/-- `get_console_output_context` (src/aitermy.py:655-718) on readable snapshot
files already sorted by modification time, newest first: cap the number of
files considered, run the budget loop, and join the parts with blank lines. -/
def get_console_output_context (maxTok maxItems : Nat)
    (files : List (String × String)) : String :=
  let parts := (consoleLoop maxTok (files.take maxItems) 0).1
  if parts = [] then "" else String.intercalate "\n\n" parts

/-! ## One-shot user-context assembly (main, src/aitermy.py:1034-1084) -/

/-- Tags recording which context providers the assembly actually invoked. -/
inductive ProviderTag
  | terminalHistory
  | consoleOutput
  | fileContent
deriving DecidableEq, Repr

/-- The argument facts `main` consults while assembling the user prompt.
`hasLines` is `hasattr(args, "lines")`; `question = ""` models an absent or
empty question (both falsy). -/
structure OneShotArgs where
  hasLines : Bool
  continueConvo : Bool
  question : String
  files : List String

/-- The values the context providers would return if invoked this turn. -/
structure ProviderEnv where
  terminalContext : String
  consoleContext : String
  fileContext : String → String

/-- Accumulator mirroring `user_prompt` / `context_added`, plus the log of
invoked providers. -/
structure AssemblyState where
  userPrompt : String
  contextAdded : Bool
  invoked : List ProviderTag
deriving Repr

/-- `get_multiple_file_contexts` (src/aitermy.py:796-805). -/
def get_multiple_file_contexts (env : ProviderEnv) (files : List String) : String :=
  String.intercalate "\n\n" (files.map env.fileContext)

/-- The legacy/V3 branch of the user-prompt assembly (src/aitermy.py:1039-1060). -/
def contextStep (v3Mode : Bool) (args : OneShotArgs) (env : ProviderEnv) :
    AssemblyState :=
  let s0 : AssemblyState := ⟨"", false, []⟩
  if v3Mode = false then
    let s1 :=
      if (args.hasLines || !args.continueConvo) && args.question == "" then
        let tc := env.terminalContext
        if pyContains tc "Recent Terminal History" then
          ⟨s0.userPrompt ++ "\n\n" ++ tc, true, s0.invoked ++ [ProviderTag.terminalHistory]⟩
        else ⟨s0.userPrompt, s0.contextAdded, s0.invoked ++ [ProviderTag.terminalHistory]⟩
      else s0
    if consoleOutputEnabled then
      let cc := env.consoleContext
      if cc ≠ "" then
        ⟨s1.userPrompt ++ "\n\n" ++ cc, true, s1.invoked ++ [ProviderTag.consoleOutput]⟩
      else ⟨s1.userPrompt, s1.contextAdded, s1.invoked ++ [ProviderTag.consoleOutput]⟩
    else s1
  else ⟨s0.userPrompt, true, s0.invoked⟩

/-- The file-context step (src/aitermy.py:1063-1076). -/
def filesStep (args : OneShotArgs) (env : ProviderEnv) (st : AssemblyState) :
    AssemblyState :=
  match args.files with
  | [] => st
  | [f] =>
    let fc := env.fileContext f
    if pyContains fc "File Content" then
      ⟨st.userPrompt ++ "\n\n" ++ fc, true, st.invoked ++ [ProviderTag.fileContent]⟩
    else ⟨st.userPrompt, st.contextAdded, st.invoked ++ [ProviderTag.fileContent]⟩
  | fs =>
    let fcs := get_multiple_file_contexts env fs
    if fcs ≠ "" then
      ⟨st.userPrompt ++ "\n\n" ++ fcs, true, st.invoked ++ [ProviderTag.fileContent]⟩
    else ⟨st.userPrompt, st.contextAdded, st.invoked ++ [ProviderTag.fileContent]⟩

/-- Full user-turn assembly of `main` (src/aitermy.py:1034-1084): context
steps followed by the question append; the user message is appended to the
outbound sequence only when the question text is non-empty. -/
def oneShotUserMessage (v3Mode : Bool) (args : OneShotArgs) (env : ProviderEnv) :
    AssemblyState × Option Message :=
  let st := filesStep args env (contextStep v3Mode args env)
  (st,
    if args.question ≠ "" then
      some ⟨Role.user, st.userPrompt ++ "\n\n" ++ args.question⟩
    else none)

/-! ## Completion response extraction (extract_model_response) -/

/-- Python values as far as the response plumbing observes them. -/
inductive PyVal
  | str (s : String)
  | int (n : Int)
  | list (xs : List PyVal)
  | dict (kvs : List (String × PyVal))
  | none

/-- Python exceptions the subscript chain can raise. -/
inductive PyErr
  | keyError
  | typeError
  | indexError
deriving DecidableEq, Repr

/-- Python `v[k]` for a string key: a missing dictionary key raises
`KeyError`; subscripting a list/str/int/None with a string raises `TypeError`. -/
def subscriptStr : PyVal → String → Except PyErr PyVal
  | PyVal.dict kvs, k =>
    match kvs.lookup k with
    | some v => Except.ok v
    | Option.none => Except.error PyErr.keyError
  | PyVal.list _, _ => Except.error PyErr.typeError
  | PyVal.str _, _ => Except.error PyErr.typeError
  | PyVal.int _, _ => Except.error PyErr.typeError
  | PyVal.none, _ => Except.error PyErr.typeError

/-- Python `v[i]` for a non-negative integer index: out-of-range list or
string indexing raises `IndexError`; a dictionary lookup with an absent
integer key raises `KeyError`; ints and None raise `TypeError`. -/
def subscriptNat : PyVal → Nat → Except PyErr PyVal
  | PyVal.list xs, i =>
    match xs.get? i with
    | some v => Except.ok v
    | Option.none => Except.error PyErr.indexError
  | PyVal.str s, i =>
    match s.data.get? i with
    | some c => Except.ok (PyVal.str (String.mk [c]))
    | Option.none => Except.error PyErr.indexError
  | PyVal.dict _, _ => Except.error PyErr.keyError
  | PyVal.int _, _ => Except.error PyErr.typeError
  | PyVal.none, _ => Except.error PyErr.typeError

/-- The subscript chain `response["choices"][0]["message"]["content"]`
(src/aitermy.py:837). -/
def extractChain (response : PyVal) : Except PyErr PyVal := do
  let choices ← subscriptStr response "choices"
  let c0 ← subscriptNat choices 0
  let msg ← subscriptStr c0 "message"
  subscriptStr msg "content"

mutual

/-- A rendering of Python `repr` for the modelled values (single-quoted
strings, bracketed lists, braced dictionaries), used only to build the text
after the sentinel prefix. -/
def pyRepr : PyVal → String
  | PyVal.str s => "\x27" ++ s ++ "\x27"
  | PyVal.int n => toString n
  | PyVal.none => "None"
  | PyVal.list xs => "[" ++ pyReprList xs ++ "]"
  | PyVal.dict kvs => "\x7b" ++ pyReprDict kvs ++ "\x7d"

/-- Comma-joined reprs of list elements. -/
def pyReprList : List PyVal → String
  | [] => ""
  | [x] => pyRepr x
  | x :: xs => pyRepr x ++ ", " ++ pyReprList xs

/-- Comma-joined reprs of dictionary entries. -/
def pyReprDict : List (String × PyVal) → String
  | [] => ""
  | [(k, v)] => "\x27" ++ k ++ "\x27: " ++ pyRepr v
  | (k, v) :: kvs => "\x27" ++ k ++ "\x27: " ++ pyRepr v ++ ", " ++ pyReprDict kvs

end

/-- The fixed literal prefix the callers test with `startswith`
(src/aitermy.py:519, 1094). -/
def sentinelPrefixText : String := "Error extracting response:"

/-- The f-string `f"Error extracting response: \x7bresponse\x7d"`
(src/aitermy.py:840). -/
def errorSentinel (response : PyVal) : String :=
  sentinelPrefixText ++ " " ++ pyRepr response

/-- `extract_model_response` (src/aitermy.py:835-840): return the content on
success; on `KeyError` or `TypeError` return the sentinel text; any other
exception (notably `IndexError` from an empty `choices` list) propagates. -/
def extract_model_response (response : PyVal) : Except PyErr PyVal :=
  match extractChain response with
  | Except.ok v => Except.ok v
  | Except.error PyErr.keyError => Except.ok (PyVal.str (errorSentinel response))
  | Except.error PyErr.typeError => Except.ok (PyVal.str (errorSentinel response))
  | Except.error PyErr.indexError => Except.error PyErr.indexError

/-! ## Supporting lemmas -/

lemma listHasChar_append (l r : List Char) (c : Char) :
    listHasChar (l ++ r) c = (listHasChar l c || listHasChar r c) := by
  induction l with
  | nil => simp [listHasChar]
  | cons x xs ih => simp [listHasChar, ih, Bool.or_assoc]

lemma listHasChar_of_digits (d : List Char) (c : Char) (hc : c.isDigit = false)
    (hd : d.all Char.isDigit = true) : listHasChar d c = false := by
  induction d with
  | nil => rfl
  | cons x xs ih =>
    simp only [List.all_cons, Bool.and_eq_true] at hd
    have hx : x ≠ c := by
      intro he
      rw [he, hc] at hd
      exact Bool.false_ne_true hd.1
    simp [listHasChar, hx, ih hd.2]

lemma pySplitOnce_first (c : Char) (l r : List Char) (h : listHasChar l c = false) :
    pySplitOnce c (l ++ c :: r) = some (l, r) := by
  induction l with
  | nil => simp [pySplitOnce]
  | cons x xs ih =>
    simp only [listHasChar, Bool.or_eq_false_iff, beq_eq_false_iff_ne, ne_eq] at h
    simp [pySplitOnce, h.1, ih h.2]

/-! ## Theorems about the claims -/

/-- C7. Given the raw history lines `": 100:0;ls -la"`, `": 101:0;ai foo"`
and `"plainline"`, requesting the last 3 lines with the configured command
name `"ai"` yields exactly `["ls -la", "plainline"]` in that order: the
assistant's own invocation is excluded by the prefix match on the command
name plus a space. -/
theorem history_filtering_example :
    filteredHistory 3 "ai" [": 100:0;ls -la", ": 101:0;ai foo", "plainline"]
      = ["ls -la", "plainline"] := by decide

/-- C6 counterexample. The source does not recognize the
`: <digits>:<digits>;` timestamp shape: any line containing both `";"` and
`":"` anywhere is split at its first `";"`. The prefix-free line `"a:b;c"`
is therefore altered to `"c"`, while the spec-modelled recovery keeps it
whole, refuting the claim that unprefixed lines are never altered beyond
whitespace stripping. -/
theorem history_line_split_counterexample :
    processEntry "a:b;c" = "c" ∧
    specRecoverCommand "a:b;c" = "a:b;c" ∧
    timestampHeader "a:b".data = false := by decide

/-- C6 amended. On every genuinely timestamp-prefixed history line
`: <digits>:<digits>;command` the source strips exactly the prefix, agreeing
with the spec-modelled recovery, and a line lacking `";"` or `":"` is only
whitespace-stripped; but (per the counterexample) a prefix-free line
containing both `";"` and `":"` is also split at its first `";"`. -/
theorem history_line_recovery (d1 d2 rest : List Char)
    (h1 : d1 ≠ [] ∧ d1.all Char.isDigit = true)
    (h2 : d2 ≠ [] ∧ d2.all Char.isDigit = true) :
    processEntry (String.mk ((':' :: ' ' :: (d1 ++ ':' :: d2)) ++ ';' :: rest))
        = String.mk (pyStrip rest) ∧
    specRecoverCommand (String.mk ((':' :: ' ' :: (d1 ++ ':' :: d2)) ++ ';' :: rest))
        = String.mk (pyStrip rest) ∧
    (∀ entry : String,
      (pyContainsChar entry ';' && pyContainsChar entry ':') = false →
      processEntry entry = pyStripStr entry) := by
  have hd1semi : listHasChar d1 ';' = false :=
    listHasChar_of_digits d1 ';' (by decide) h1.2
  have hd2semi : listHasChar d2 ';' = false :=
    listHasChar_of_digits d2 ';' (by decide) h2.2
  have hd1colon : listHasChar d1 ':' = false :=
    listHasChar_of_digits d1 ':' (by decide) h1.2
  have hhead : listHasChar (':' :: ' ' :: (d1 ++ ':' :: d2)) ';' = false := by
    simp [listHasChar, listHasChar_append, hd1semi, hd2semi]
  have hsplit :
      pySplitOnce ';' ((':' :: ' ' :: (d1 ++ ':' :: d2)) ++ ';' :: rest)
        = some (':' :: ' ' :: (d1 ++ ':' :: d2), rest) :=
    pySplitOnce_first ';' _ rest hhead
  have hc1 : listHasChar ((':' :: ' ' :: (d1 ++ ':' :: d2)) ++ ';' :: rest) ';' = true := by
    simp [listHasChar_append, listHasChar]
  have hc2 : listHasChar ((':' :: ' ' :: (d1 ++ ':' :: d2)) ++ ';' :: rest) ':' = true := by
    simp [listHasChar_append, listHasChar]
  have hts : timestampHeader (':' :: ' ' :: (d1 ++ ':' :: d2)) = true := by
    simp only [timestampHeader, pySplitOnce_first ':' d1 d2 hd1colon]
    simp [h1.1, h1.2, h2.1, h2.2]
  simp only [List.cons_append, List.append_assoc] at hsplit hc1 hc2
  refine ⟨?_, ?_, ?_⟩
  · simp [processEntry, pyContainsChar, hc1, hc2, hsplit]
  · simp [specRecoverCommand, hsplit, hts]
  · intro entry hfalse
    simp [processEntry, hfalse]

/-- C6 witness. The amended theorem applied to the concrete line
`": 100:0;ls -la"`. -/
theorem history_line_recovery_witness :
    (('1' :: '0' :: '0' :: []) ≠ [] ∧
      ('1' :: '0' :: '0' :: []).all Char.isDigit = true) ∧
    (('0' :: []) ≠ [] ∧ ('0' :: []).all Char.isDigit = true) ∧
    processEntry (String.mk ((':' :: ' ' :: (('1' :: '0' :: '0' :: []) ++ ':' :: ('0' :: []))) ++
        ';' :: ('l' :: 's' :: ' ' :: '-' :: 'l' :: 'a' :: [])))
      = String.mk (pyStrip ('l' :: 's' :: ' ' :: '-' :: 'l' :: 'a' :: [])) :=
  ⟨⟨by decide, by decide⟩, ⟨by decide, by decide⟩,
    (history_line_recovery ('1' :: '0' :: '0' :: []) ('0' :: [])
      ('l' :: 's' :: ' ' :: '-' :: 'l' :: 'a' :: [])
      ⟨by decide, by decide⟩ ⟨by decide, by decide⟩).1⟩

/-- C9. Saving a conversation and loading it back returns an equal
conversation, for every message list (unicode content and a trailing
unmatched user message included, since `C` is arbitrary). The pickle
payload is modelled as the exact message list, matching pickle's exact
round-trip of the role/content object graph. -/
theorem conversation_round_trip (fs : StoredFile) (C : List Message) :
    load_conversation_history (save_conversation_history C fs) = C := rfl

/-- C10 counterexample. A structurally valid response whose `choices` list
is empty does not yield the sentinel text: `response["choices"][0]` raises
`IndexError`, which the `except (KeyError, TypeError)` handler does not
catch, so the extraction raises instead of returning. -/
theorem extraction_empty_choices_counterexample :
    extract_model_response (PyVal.dict [("choices", PyVal.list [])])
      = Except.error PyErr.indexError := rfl

/-- C10 amended. For every response whose subscript chain fails with
`KeyError` or `TypeError` (missing field or wrong type), the extraction
returns, without raising, a sentinel text starting with the fixed literal
prefix `"Error extracting response:"`; an empty `choices` list instead
raises an uncaught `IndexError` (see the counterexample). -/
theorem extraction_failure_sentinel (response : PyVal)
    (h : extractChain response = Except.error PyErr.keyError ∨
         extractChain response = Except.error PyErr.typeError) :
    extract_model_response response = Except.ok (PyVal.str (errorSentinel response)) ∧
    pyStartsWith (errorSentinel response) "Error extracting response:" = true := by
  constructor
  · rcases h with h | h <;> simp [extract_model_response, h]
  · simp only [pyStartsWith, errorSentinel, sentinelPrefixText, String.data_append]
    exact List.isPrefixOf_iff_prefix.mpr (List.prefix_append _ _)

/-- C10 witness. The amended theorem applied to the error-shaped response
`\x7b"error": "API request failed"\x7d` that `query_openrouter` produces on
transport failure: the `choices` lookup fails with `KeyError` and the
sentinel is returned. -/
theorem extraction_failure_sentinel_witness :
    (extractChain (PyVal.dict [("error", PyVal.str "API request failed")])
        = Except.error PyErr.keyError ∨
      extractChain (PyVal.dict [("error", PyVal.str "API request failed")])
        = Except.error PyErr.typeError) ∧
    extract_model_response (PyVal.dict [("error", PyVal.str "API request failed")])
      = Except.ok (PyVal.str (errorSentinel
          (PyVal.dict [("error", PyVal.str "API request failed")]))) ∧
    pyStartsWith (errorSentinel (PyVal.dict [("error", PyVal.str "API request failed")]))
        "Error extracting response:" = true :=
  ⟨Or.inl rfl,
    (extraction_failure_sentinel (PyVal.dict [("error", PyVal.str "API request failed")])
      (Or.inl rfl)).1,
    (extraction_failure_sentinel (PyVal.dict [("error", PyVal.str "API request failed")])
      (Or.inl rfl)).2⟩

/-- C1 counterexample. A turn whose extracted answer carries the error
sentinel still grows the conversation: the tentatively appended user message
stays, and the unconditional save persists it, so the message count after
the turn is 2, not the 1 it was before. -/
theorem error_turn_counterexample :
    processTurn 10 [⟨Role.system, "s"⟩] "hi" "Error extracting response: boom"
      = [⟨Role.system, "s"⟩, ⟨Role.user, "hi"⟩] ∧
    (processTurn 10 [⟨Role.system, "s"⟩] "hi" "Error extracting response: boom").length
      ≠ ([⟨Role.system, "s"⟩] : List Message).length ∧
    load_conversation_history
        (save_conversation_history
          (processTurn 10 [⟨Role.system, "s"⟩] "hi" "Error extracting response: boom")
          StoredFile.absent)
      = [⟨Role.system, "s"⟩, ⟨Role.user, "hi"⟩] := by decide

/-- C1 amended. When the extracted answer starts with the error-sentinel
prefix, the error text is never appended as an assistant message — the turn
reduces to appending the user message and trimming — but the tentative user
message itself remains and is persisted, so whenever trimming does not kick
in, the message count after the turn is exactly one more than before. -/
theorem error_turn_appends_user_only (T : Nat) (history : List Message)
    (input answer : String) (h : sentinelCheck answer = true) :
    processTurn T history input answer
        = trimConversation T (history ++ [⟨Role.user, input⟩]) ∧
    (history.length + 1 ≤ 2 * T + 1 →
      (processTurn T history input answer).length = history.length + 1) := by
  have heq : processTurn T history input answer
      = trimConversation T (history ++ [⟨Role.user, input⟩]) := by
    simp [processTurn, h]
  refine ⟨heq, fun hle => ?_⟩
  rw [heq, trimConversation,
    if_neg (by simp only [List.length_append, List.length_singleton]; omega)]
  simp

/-- C1 witness. The amended theorem at a one-message history and a concrete
sentinel answer: the turn yields a two-message conversation. -/
theorem error_turn_appends_user_only_witness :
    sentinelCheck "Error extracting response: x" = true ∧
    processTurn 10 [⟨Role.system, "sys"⟩] "q" "Error extracting response: x"
        = trimConversation 10 ([⟨Role.system, "sys"⟩] ++ [⟨Role.user, "q"⟩]) ∧
    (processTurn 10 [⟨Role.system, "sys"⟩] "q" "Error extracting response: x").length
        = ([⟨Role.system, "sys"⟩] : List Message).length + 1 :=
  ⟨by decide,
    (error_turn_appends_user_only 10 [⟨Role.system, "sys"⟩] "q"
      "Error extracting response: x" (by decide)).1,
    (error_turn_appends_user_only 10 [⟨Role.system, "sys"⟩] "q"
      "Error extracting response: x" (by decide)).2 (by decide)⟩

/-- C2 counterexample. With the configured maximum-turns value 0, a
conversation of 2 messages exceeds `2*T+1 = 1`, yet trimming yields 3
messages, not 1: Python's `history[-(2*0):]` is `history[0:]`, the whole
list, so the first message is duplicated instead of the tail being kept. -/
theorem trim_zero_turns_counterexample :
    trimConversation 0 [⟨Role.system, "m0"⟩, ⟨Role.user, "m1"⟩]
      = [⟨Role.system, "m0"⟩, ⟨Role.system, "m0"⟩, ⟨Role.user, "m1"⟩] ∧
    (trimConversation 0 [⟨Role.system, "m0"⟩, ⟨Role.user, "m1"⟩]).length ≠ 2 * 0 + 1 := by
  decide

/-- C2 amended. For every positive configured maximum-turns value `T` and
every conversation longer than `2*T+1` messages, trimming produces exactly
`2*T+1` messages whose first message is the original first message and whose
remaining `2*T` messages are the original's last `2*T`, in order. (At `T = 0`
the `-0` slicing pitfall breaks the invariant; see the counterexample.) -/
theorem trimming_invariant (T : Nat) (h : List Message) (hT : 1 ≤ T)
    (hlen : 2 * T + 1 < h.length) :
    (trimConversation T h).length = 2 * T + 1 ∧
    (trimConversation T h).head? = h.head? ∧
    (trimConversation T h).drop 1 = h.drop (h.length - 2 * T) := by
  have h2T : 2 * T ≠ 0 := by omega
  rcases h with _ | ⟨a, t⟩
  · simp at hlen
  · have heq : trimConversation T (a :: t)
        = a :: (a :: t).drop ((a :: t).length - 2 * T) := by
      rw [trimConversation, if_pos hlen, pyLastSlice, if_neg h2T]
      simp
    refine ⟨?_, ?_, ?_⟩
    · rw [heq]
      simp only [List.length_cons, List.length_drop]
      simp only [List.length_cons] at hlen
      omega
    · rw [heq]
      simp
    · rw [heq]
      simp

/-- C2 witness. The amended theorem at `T = 1` and a four-message
conversation: trimming keeps the system message and the last two messages. -/
theorem trimming_invariant_witness :
    (1 : Nat) ≤ 1 ∧
    2 * 1 + 1 < ([⟨Role.system, "s"⟩, ⟨Role.user, "u1"⟩, ⟨Role.assistant, "a1"⟩,
      ⟨Role.user, "u2"⟩] : List Message).length ∧
    (trimConversation 1 [⟨Role.system, "s"⟩, ⟨Role.user, "u1"⟩, ⟨Role.assistant, "a1"⟩,
        ⟨Role.user, "u2"⟩]).length = 2 * 1 + 1 ∧
    (trimConversation 1 [⟨Role.system, "s"⟩, ⟨Role.user, "u1"⟩, ⟨Role.assistant, "a1"⟩,
        ⟨Role.user, "u2"⟩]).head?
      = ([⟨Role.system, "s"⟩, ⟨Role.user, "u1"⟩, ⟨Role.assistant, "a1"⟩,
          ⟨Role.user, "u2"⟩] : List Message).head? :=
  ⟨by decide, by decide,
    (trimming_invariant 1 [⟨Role.system, "s"⟩, ⟨Role.user, "u1"⟩, ⟨Role.assistant, "a1"⟩,
      ⟨Role.user, "u2"⟩] (by decide) (by decide)).1,
    (trimming_invariant 1 [⟨Role.system, "s"⟩, ⟨Role.user, "u1"⟩, ⟨Role.assistant, "a1"⟩,
      ⟨Role.user, "u2"⟩] (by decide) (by decide)).2.1⟩

/-- C8 counterexample. In interactive mode with an empty conversation and a
V3 (integrated-mode) shell context, the non-empty console-output context is
still appended to the synthesized system message: the append is not guarded
by the mode, refuting "not appended in integrated mode". -/
theorem console_context_integrated_counterexample :
    (get_shell_context ⟨"/home/u", "", "zsh", "", "", "", "0", "", ""⟩ "/cwd" "ai").v3_mode
        = true ∧
    interactiveInitConversation []
        (get_shell_context ⟨"/home/u", "", "zsh", "", "", "", "0", "", ""⟩ "/cwd" "ai")
        "Linux" "OUT"
      = [⟨Role.system,
          build_system_message "Linux"
              (get_shell_context ⟨"/home/u", "", "zsh", "", "", "", "0", "", ""⟩ "/cwd" "ai")
            ++ "\n\nRecent console output context:\nOUT"⟩] := by decide

/-- C8 amended. When the conversation is empty, the interactive loop appends
a non-empty console-output context to the synthesized system message
regardless of mode (legacy or integrated), while the one-shot path never
appends it to the system message (in legacy mode it is injected into the
user message instead). -/
theorem console_context_append_both_modes (ctx : ShellContext)
    (osType consoleCtx : String) (h : consoleCtx ≠ "") :
    interactiveInitConversation [] ctx osType consoleCtx
      = [⟨Role.system,
          build_system_message osType ctx
            ++ "\n\nRecent console output context:\n" ++ consoleCtx⟩] ∧
    oneShotInitMessages [] ctx osType
      = [⟨Role.system, build_system_message osType ctx⟩] := by
  constructor
  · simp [interactiveInitConversation, consoleOutputEnabled, h]
  · simp [oneShotInitMessages]

/-- C8 witness. The amended theorem at an integrated-mode context and the
console text `"OUT"`. -/
theorem console_context_append_both_modes_witness :
    ("OUT" : String) ≠ "" ∧
    interactiveInitConversation [] ⟨"/p", "", "bash", "", "", "", "0", "", "", true⟩
        "Linux" "OUT"
      = [⟨Role.system,
          build_system_message "Linux" ⟨"/p", "", "bash", "", "", "", "0", "", "", true⟩
            ++ "\n\nRecent console output context:\n" ++ "OUT"⟩] :=
  ⟨by decide,
    (console_context_append_both_modes ⟨"/p", "", "bash", "", "", "", "0", "", "", true⟩
      "Linux" "OUT" (by decide)).1⟩

/-- C5 code evaluation. In a legacy-mode one-shot invocation with the
non-empty question `"hi"`, `-l` given, and a terminal-history block carrying
the usable-context marker, the appended user message is just `"\n\nhi"`: the
condition `(hasattr(args, "lines") or not args.continue_convo) and not
args.question` rejects every invocation that has a question, so the
terminal-history block never reaches a user message. With an empty question
the provider is invoked — but then no user message is sent at all. -/
theorem one_shot_terminal_history_unreachable :
    (oneShotUserMessage false ⟨true, false, "hi", []⟩
        ⟨"Recent Terminal History:\nls -la", "", fun _ => ""⟩).2
      = some ⟨Role.user, "\n\nhi"⟩ ∧
    pyContains "Recent Terminal History:\nls -la" "Recent Terminal History" = true ∧
    pyContains "\n\nhi" "Recent Terminal History" = false ∧
    ProviderTag.terminalHistory ∉
      (oneShotUserMessage false ⟨true, false, "hi", []⟩
        ⟨"Recent Terminal History:\nls -la", "", fun _ => ""⟩).1.invoked ∧
    (oneShotUserMessage false ⟨true, false, "", []⟩
        ⟨"Recent Terminal History:\nls -la", "", fun _ => ""⟩).2 = none ∧
    ProviderTag.terminalHistory ∈
      (oneShotUserMessage false ⟨true, false, "", []⟩
        ⟨"Recent Terminal History:\nls -la", "", fun _ => ""⟩).1.invoked := by decide

/-- Helper for C4: the file-context step only ever adds the file-content
tag to the invocation log. -/
lemma filesStep_invoked_tags (args : OneShotArgs) (env : ProviderEnv)
    (st : AssemblyState) :
    (filesStep args env st).invoked = st.invoked ∨
    (filesStep args env st).invoked = st.invoked ++ [ProviderTag.fileContent] := by
  rcases hf : args.files with _ | ⟨f, rest⟩
  · left
    simp [filesStep, hf]
  · rcases rest with _ | ⟨g, rest2⟩
    · right
      simp only [filesStep, hf]
      split <;> rfl
    · right
      simp only [filesStep, hf]
      split <;> rfl

/-- C4. When the Shell Context Snapshot's current-directory variable is
non-empty (integrated/V3 mode), neither the terminal-history provider nor
the console-output provider is invoked while assembling the turn's
user-message context in the one-shot path. -/
theorem mode_exclusivity (e : ShellEnv) (cwd commandName : String)
    (args : OneShotArgs) (env : ProviderEnv) (h : e.pwd ≠ "") :
    ProviderTag.terminalHistory ∉
        (oneShotUserMessage (get_shell_context e cwd commandName).v3_mode args env).1.invoked ∧
    ProviderTag.consoleOutput ∉
        (oneShotUserMessage (get_shell_context e cwd commandName).v3_mode args env).1.invoked := by
  have hv : (get_shell_context e cwd commandName).v3_mode = true := by
    simp [get_shell_context, h]
  have hctx : contextStep true args env = ⟨"", true, []⟩ := by
    simp [contextStep]
  have hone : (oneShotUserMessage true args env).1
      = filesStep args env (⟨"", true, []⟩ : AssemblyState) := by
    rw [show (oneShotUserMessage true args env).1
          = filesStep args env (contextStep true args env) from rfl, hctx]
  rw [hv, hone]
  rcases filesStep_invoked_tags args env ⟨"", true, []⟩ with he | he <;> rw [he] <;> simp

/-- C4 witness. The theorem at a concrete integrated-mode environment with a
question and a context file. -/
theorem mode_exclusivity_witness :
    ("/home/u" : String) ≠ "" ∧
    ProviderTag.terminalHistory ∉
        (oneShotUserMessage
          (get_shell_context ⟨"/home/u", "", "zsh", "", "", "", "0", "u", "h"⟩ "/cwd" "ai").v3_mode
          ⟨false, false, "hi", ["a.py"]⟩
          ⟨"", "", fun _ => "File Content (a.py):\nprint(1)"⟩).1.invoked ∧
    ProviderTag.consoleOutput ∉
        (oneShotUserMessage
          (get_shell_context ⟨"/home/u", "", "zsh", "", "", "", "0", "u", "h"⟩ "/cwd" "ai").v3_mode
          ⟨false, false, "hi", ["a.py"]⟩
          ⟨"", "", fun _ => "File Content (a.py):\nprint(1)"⟩).1.invoked :=
  ⟨by decide,
    (mode_exclusivity ⟨"/home/u", "", "zsh", "", "", "", "0", "u", "h"⟩ "/cwd" "ai"
      ⟨false, false, "hi", ["a.py"]⟩
      ⟨"", "", fun _ => "File Content (a.py):\nprint(1)"⟩ (by decide)).1,
    (mode_exclusivity ⟨"/home/u", "", "zsh", "", "", "", "0", "u", "h"⟩ "/cwd" "ai"
      ⟨false, false, "hi", ["a.py"]⟩
      ⟨"", "", fun _ => "File Content (a.py):\nprint(1)"⟩ (by decide)).2⟩

lemma estSum_nil : estSum [] = 0 := rfl

lemma estSum_cons (f : String × String) (l : List (String × String)) :
    estSum (f :: l) = estTok f.2 + estSum l := by
  simp [estSum]

/-- The running `total_tokens` accumulator never exceeds the budget. -/
lemma consoleLoop_total_le (maxTok : Nat) (fs : List (String × String)) :
    ∀ total : Nat, total ≤ maxTok → (consoleLoop maxTok fs total).2 ≤ maxTok := by
  induction fs with
  | nil =>
    intro total h
    simpa [consoleLoop] using h
  | cons f rest ih =>
    intro total h
    simp only [consoleLoop]
    by_cases h1 : total + estTok f.2 > maxTok
    · rw [if_pos h1]
      by_cases h2 : maxTok - total > 100
      · rw [if_pos h2]
        show total + (maxTok - total) ≤ maxTok
        omega
      · rw [if_neg h2]
        exact h
    · rw [if_neg h1]
      exact ih (total + estTok f.2) (by omega)

/-- Greedy structure of the budget loop: the result is the rendering of an
initial segment of whole files that fits the budget, followed either by
nothing (with the next file, if any, overflowing while at most 100 units
remain) or by a single truncated-to-fit rendering of the next file (which
overflows while more than 100 units remain), carrying the explicit
truncation marker. -/
lemma consoleLoop_greedy (maxTok : Nat) (fs : List (String × String)) :
    ∀ total : Nat, total ≤ maxTok →
      ∃ k, k ≤ fs.length ∧ total + estSum (fs.take k) ≤ maxTok ∧
        (((consoleLoop maxTok fs total).1
            = (fs.take k).map (fun f => renderPart f.1 f.2) ∧
          ∀ p, fs[k]? = some p →
            maxTok < total + estSum (fs.take k) + estTok p.2 ∧
            maxTok - (total + estSum (fs.take k)) ≤ 100) ∨
         ∃ p, fs[k]? = some p ∧
            maxTok < total + estSum (fs.take k) + estTok p.2 ∧
            100 < maxTok - (total + estSum (fs.take k)) ∧
            (consoleLoop maxTok fs total).1
              = (fs.take k).map (fun f => renderPart f.1 f.2) ++
                [renderPart p.1
                  (truncatedContent ((maxTok - (total + estSum (fs.take k))) * 4) p.2)]) := by
  induction fs with
  | nil =>
    intro total h
    refine ⟨0, by simp, by simpa [estSum_nil], Or.inl ⟨by simp [consoleLoop], ?_⟩⟩
    intro p hp
    simp at hp
  | cons f rest ih =>
    intro total h
    by_cases h1 : total + estTok f.2 > maxTok
    · by_cases h2 : maxTok - total > 100
      · refine ⟨0, by simp, by simpa [estSum_nil] using h, Or.inr ⟨f, by simp, ?_, ?_, ?_⟩⟩
        · simpa [estSum_nil] using h1
        · simpa [estSum_nil] using h2
        · simp [consoleLoop, h1, h2, estSum_nil]
      · refine ⟨0, by simp, by simpa [estSum_nil] using h, Or.inl ⟨?_, ?_⟩⟩
        · simp [consoleLoop, h1, h2, estSum_nil]
        · intro p hp
          rw [List.getElem?_cons_zero, Option.some.injEq] at hp
          subst hp
          constructor
          · simpa [estSum_nil] using h1
          · simp only [List.take_zero, estSum_nil, Nat.add_zero]
            omega
    · have hl : (consoleLoop maxTok (f :: rest) total).1
          = renderPart f.1 f.2 :: (consoleLoop maxTok rest (total + estTok f.2)).1 := by
        simp only [consoleLoop]
        rw [if_neg h1]
      obtain ⟨k, hk, hsum, hcase⟩ := ih (total + estTok f.2) (by omega)
      refine ⟨k + 1, by simpa using Nat.succ_le_succ hk, ?_, ?_⟩
      · simp only [List.take_succ_cons, estSum_cons]
        omega
      · rcases hcase with ⟨hparts, hbound⟩ | ⟨p, hp, hlt, hgt, hparts⟩
        · refine Or.inl ⟨?_, ?_⟩
          · rw [hl, hparts]
            simp [List.take_succ_cons]
          · intro p hp
            rw [List.getElem?_cons_succ] at hp
            have hb := hbound p hp
            simp only [List.take_succ_cons, estSum_cons]
            omega
        · refine Or.inr ⟨p, ?_, ?_, ?_, ?_⟩
          · rw [List.getElem?_cons_succ]
            exact hp
          · simp only [List.take_succ_cons, estSum_cons]
            omega
          · simp only [List.take_succ_cons, estSum_cons]
            omega
          · rw [hl, hparts]
            simp only [List.take_succ_cons, List.map_cons, List.cons_append,
              estSum_cons, ← Nat.add_assoc]

/-- C3. For console-output snapshot files (newest first, capped at the item
limit) whose combined token estimate exceeds the budget by more than 100
units, the provider's loop includes whole files as long as they fit; it ends
either with no extra part — in which case the next file, if one exists,
would overflow and at most 100 units remain — or with exactly one further
file truncated to the remaining budget and tagged with the truncation
marker (which `truncatedContent` appends), that file overflowing while more
than 100 units remain; and the total of estimated tokens accounted never
exceeds the configured maximum. -/
theorem console_budget_truncation (maxTok maxItems : Nat)
    (files : List (String × String))
    (hbig : maxTok + 100 < estSum (files.take maxItems)) :
    (consoleLoop maxTok (files.take maxItems) 0).2 ≤ maxTok ∧
    ∃ k, k ≤ (files.take maxItems).length ∧
      estSum ((files.take maxItems).take k) ≤ maxTok ∧
      (((consoleLoop maxTok (files.take maxItems) 0).1
          = ((files.take maxItems).take k).map (fun f => renderPart f.1 f.2) ∧
        ∀ p, (files.take maxItems)[k]? = some p →
          maxTok < estSum ((files.take maxItems).take k) + estTok p.2 ∧
          maxTok - estSum ((files.take maxItems).take k) ≤ 100) ∨
       ∃ p, (files.take maxItems)[k]? = some p ∧
          maxTok < estSum ((files.take maxItems).take k) + estTok p.2 ∧
          100 < maxTok - estSum ((files.take maxItems).take k) ∧
          (consoleLoop maxTok (files.take maxItems) 0).1
            = ((files.take maxItems).take k).map (fun f => renderPart f.1 f.2) ++
              [renderPart p.1
                (truncatedContent
                  ((maxTok - estSum ((files.take maxItems).take k)) * 4) p.2)]) := by
  refine ⟨consoleLoop_total_le maxTok (files.take maxItems) 0 (Nat.zero_le _), ?_⟩
  obtain ⟨k, hk, hsum, hcase⟩ :=
    consoleLoop_greedy maxTok (files.take maxItems) 0 (Nat.zero_le _)
  simp only [Nat.zero_add] at hsum hcase
  exact ⟨k, hk, hsum, hcase⟩

/-- C3 witness. One 408-character snapshot against a budget of 1 token-unit:
the combined estimate 102 exceeds the budget by more than 100 units and the
loop's total stays within the budget. -/
theorem console_budget_truncation_witness :
    1 + 100 < estSum ([("f", String.mk (List.replicate 408 'a'))].take 1) ∧
    (consoleLoop 1 ([("f", String.mk (List.replicate 408 'a'))].take 1) 0).2 ≤ 1 :=
  ⟨by decide,
    (console_budget_truncation 1 1 [("f", String.mk (List.replicate 408 'a'))]
      (by decide)).1⟩

end AiTermy
